import Mathlib

/-!
Verification of the Code2MCP pipeline orchestration engine.

This file is a shallow embedding, in Lean 4, of the stage/state machine of
`src/workflow.py` together with the stage functions it routes between
(`download_node`, `analysis_node`, `env_node`, `generate_node`, `run_node`,
`review_node`, `finalize_node`) and the helpers of `src/utils.py`
(`should_stop_workflow`, `should_retry_generation`, `has_critical_errors`).

Modelling conventions, stated once here:

* The Python state is an untyped dict.  We embed exactly the keys that the
  routing functions and the claims read or write: `status`,
  `workflow_status`, `run_result`, `error_analysis`, `fix_applied`,
  `fix_retry_count`, `generation_retry_count`, `errors`,
  `previous_run_results`, `tests["plugin"]["passed"]`,
  `tests["original"]["passed"]`, `env`, and the repository identity
  (`repository.name` and `repository.local_paths.repo_root`).  Keys that no
  routing decision and no claim depends on (`loop_summary`, `code_review`,
  `analysis`, `plugin`, `summary`, `options`, timestamps) are not tracked;
  no modelled read ever consults them.
* A dict key that is read with `.get(k, default)` everywhere is embedded as
  a field that is always present, holding the default when the dict would
  lack the key.  A key whose presence is tested (`error_analysis`,
  `fix_applied`, `run_result`) is embedded as an `Option`; an absent key
  and a present-but-falsy value (empty dict, `False`) are identified,
  because every read in the source is via `get` plus truthiness.
* External effects (subprocess outcomes, the generation service, the file
  system probes) are inputs: an `Oracle` record supplies the outcome of
  each external call.  A property proved for every oracle covers every
  behaviour of the real effects; a counterexample instantiates the oracle
  with one concrete, realizable outcome.
* `_apply_incremental_fixes` returns a `bool`; its guards are embedded
  (it returns `False` when `get_llm_service()` raises, when the pending
  `run_result` carries neither an error text nor captured stderr, and when
  the repository root is missing) and only the outcome of the remaining
  `_fix_error_with_llm` call is abstracted, by the oracle field `fixOk`.
* LangGraph conditional edges receive the state dict and mutate it in
  place (`route_after_run` appends an error record, `route_after_review`
  deletes keys and sets the failed status); the embedding threads these
  mutations through, so each router returns the next target and the
  updated state.
* Strings stay strings; Python `a or b` on strings and `pat in s` are
  embedded as `pyOr` and `pyIn`.
-/

namespace Code2MCP

/-- Python `a or b` for strings: the first operand unless it is empty. -/
def pyOr (a b : String) : String := if a == "" then b else a

/-- Whether the first list is a leading segment of the second. -/
def leadsWith : List Char → List Char → Bool
  | [], _ => true
  | _ :: _, [] => false
  | a :: as, b :: bs => a == b && leadsWith as bs

/-- Whether `pat` occurs as a contiguous segment of `text`. -/
def hasSub (pat : List Char) : List Char → Bool
  | [] => leadsWith pat []
  | c :: cs => leadsWith pat (c :: cs) || hasSub pat cs

/-- Python `pat in s` (substring test). -/
def pyIn (pat s : String) : Bool := hasSub pat.data s.data

/-- Python `s.startswith(pat)`. -/
def strStarts (pat s : String) : Bool := leadsWith pat.data s.data

/-- Python `s.endswith(pat)`. -/
def strEnds (pat s : String) : Bool := leadsWith pat.data.reverse s.data.reverse

/-- `.replace("\r\n", "\n").replace("\r", "\n")`, fused into one pass. -/
def normalizeNewlines : List Char → List Char
  | [] => []
  | '\r' :: '\n' :: cs => '\n' :: normalizeNewlines cs
  | '\r' :: cs => '\n' :: normalizeNewlines cs
  | c :: cs => c :: normalizeNewlines cs

/-- Split a character list on a separator character. -/
def splitOnChar (sep : Char) : List Char → List (List Char)
  | [] => [[]]
  | c :: cs =>
    if c == sep then [] :: splitOnChar sep cs
    else
      match splitOnChar sep cs with
      | [] => [[c]]
      | h :: t => (c :: h) :: t

/-- Python `s.strip()` restricted to the blank characters that occur in the
modelled texts. -/
def trimChars (l : List Char) : List Char :=
  let sp := fun c : Char => c == ' ' || c == '\t' || c == '\r' || c == '\n'
  ((l.dropWhile sp).reverse.dropWhile sp).reverse

/-- `os.path`-style split of a relative path into its components. -/
def splitSlash (s : String) : List String :=
  (splitOnChar '/' s.data).map (fun l => String.mk l)

/-- Python `s[-1000:]`: the last 1000 characters of `s`. -/
def tail1000 (s : String) : String := ⟨s.data.drop (s.data.length - 1000)⟩

/-- `run_result` as written by `run_node` (src/src/nodes/run_node.py:151-179).
The `error` and `error_type` keys are absent on success; they are embedded
as `""`, matching every read (`run_result.get("error", ...)`). -/
structure RunResult where
  success : Bool
  exit_code : Int
  stdout : String
  stderr : String
  error : String
  error_type : String
deriving DecidableEq

/-- One entry of the append-only `errors` list. -/
structure ErrRec where
  node : String
  type : String
  severity : String
  message : String
  action_taken : String
deriving DecidableEq

/-- A truthy (non-empty) `error_analysis` dict.  Only `next_action` and
`confidence` are ever read from it by the modelled code
(`should_stop_workflow` in src/src/utils.py:531-543 and the default read
in `review_node`); a missing key is `none`. -/
structure EA where
  next_action : Option String
  confidence : Option Rat
deriving DecidableEq

/-- The environment record built by `env_node`
(src/src/nodes/env_node.py:517-609).  The source key `exec_` followed by
`prefix` is embedded as `exec_cmd`.  Paths are joined with `/`. -/
structure Env where
  type : String
  name : String
  path : String
  exec_cmd : List String
  python : String
deriving DecidableEq

/-- The tracked projection of the workflow state dict. -/
structure WorkflowState where
  status : String
  workflow_status : String
  repo_name : String
  repo_root : String
  repoOk : Bool
  run_result : Option RunResult
  error_analysis : Option EA
  fix_applied : Option Bool
  fix_retry_count : Nat
  generation_retry_count : Nat
  errors : List ErrRec
  previous_run_results : List RunResult
  tests_plugin : Option Bool
  tests_original : Option Bool
  env : Option Env
deriving DecidableEq

/-- Outcomes of the external calls, one field per call site.
`execCode`, `execOut`, `execErr` are the exit code and captured output of
the final smoke invocation of `start_mcp.py` performed by `run_node`. -/
structure Oracle where
  downloadOk : Bool
  cloneOk : Bool
  repoRootPath : String
  analysisOk : Bool
  condaAvailable : Bool
  condaCreateOk : Bool
  venvOk : Bool
  isWindows : Bool
  ts : String
  startOk : Bool
  execCode : Int
  execOut : String
  execErr : String
  llmOk : Bool
  fixOk : Bool
deriving DecidableEq

/-- Append an abort record and mark both status fields failed: the common
abort pattern of every node. -/
def failState (s : WorkflowState) (e : ErrRec) : WorkflowState :=
  { s with errors := s.errors ++ [e], status := "failed", workflow_status := "failed" }

/-- `state.get("run_result", {}).get("success", False)`. -/
def runSuccess (s : WorkflowState) : Bool := (s.run_result.map (·.success)).getD false

/-! ## Stage functions -/

/-- `download_node` (src/src/nodes/download_node.py): aborts when the
repository url or name is missing, otherwise clones (clone failure is
degraded, recorded and continued) and records the local paths; ends with
`status = "running"` and `workflow_status` preserved. -/
def download_node (o : Oracle) (s : WorkflowState) : WorkflowState :=
  if o.downloadOk then
    { s with repo_root := o.repoRootPath, repoOk := o.cloneOk,
             status := "running", workflow_status := s.workflow_status }
  else
    failState s ⟨"DownloadNode", "InvalidInput", "", "Missing repository.url", "abort"⟩

/-- `analysis_node` (src/src/nodes/analysis_node.py): the abort branch at
lines 271-272 versus the normal end at lines 390-391.  The analysis blob
itself is untracked. -/
def analysis_node (o : Oracle) (s : WorkflowState) : WorkflowState :=
  if o.analysisOk then
    { s with status := "running", workflow_status := s.workflow_status }
  else
    failState s ⟨"AnalysisNode", "AnalysisFailed", "", "analysis failed", "abort"⟩

/-- `_venv_python_path` (src/src/nodes/env_node.py:563-567). -/
def venv_python_path (isWindows : Bool) (env_path : String) : String :=
  if isWindows then env_path ++ "/Scripts/python.exe" else env_path ++ "/bin/python"

/-- `_create_venv_env` (src/src/nodes/env_node.py:517-561): returns the
light environment when the venv interpreter file exists after the creation
attempt (`o.venvOk`), with `exec_cmd = [venv_py]`, else `None`. -/
def _create_venv_env (o : Oracle) (repo_root repo_name : String) : Option Env :=
  let env_name := repo_name ++ "_" ++ o.ts ++ "_venv"
  let env_path := repo_root ++ "/" ++ env_name
  if o.venvOk then
    some { type := "venv", name := env_name, path := env_path,
           exec_cmd := [venv_python_path o.isWindows env_path], python := "3.10" }
  else none

/-- `_create_conda_env` (src/src/nodes/env_node.py:384-513): succeeds or
returns `None`; the conda record carries an empty `exec_cmd` at creation. -/
def _create_conda_env (o : Oracle) (env_name : String) : Option Env :=
  if o.condaCreateOk then
    some { type := "conda", name := env_name, path := "", exec_cmd := [], python := "3.10" }
  else none

/-- `env_node` (src/src/nodes/env_node.py:569-609 and 845-846): abort when
the repo root or name is missing; prefer conda when available, fall back
to `_create_venv_env`, and degrade to a none-typed environment with a
recorded `EnvSetupFailed` error when both fail. -/
def env_node (o : Oracle) (s : WorkflowState) : WorkflowState :=
  if s.repoOk && !(s.repo_name == "") then
    let condaEnv : Option Env :=
      if o.condaAvailable then _create_conda_env o (s.repo_name ++ "_" ++ o.ts ++ "_env")
      else none
    let env1 : Option Env :=
      match condaEnv with
      | some e => some e
      | none => _create_venv_env o s.repo_root s.repo_name
    match env1 with
    | some e => { s with env := some e, status := "running",
                         workflow_status := s.workflow_status }
    | none =>
        { s with env := some { type := "none", name := "none", path := "",
                               exec_cmd := [], python := "3.10" },
                 errors := s.errors ++
                   [⟨"EnvNode", "EnvSetupFailed", "",
                     "Unable to create any type of environment", "continue"⟩],
                 status := "running", workflow_status := s.workflow_status }
  else
    failState s ⟨"EnvNode", "InvalidInput", "", "Missing repo_root path or repo_name", "abort"⟩

/-- `generate_node` (src/src/nodes/generate_node.py:1232-1233): it never
sets a failed status; the generated artifact is untracked. -/
def generate_node (s : WorkflowState) : WorkflowState :=
  { s with status := "running", workflow_status := s.workflow_status }

/-- The text the classification in `run_node` lines 160-173 operates on:
`error_message = err or out or "Unknown runtime error"` — the captured
stderr when non-empty, else stdout, else a fixed fallback. -/
def selectedText (out err : String) : String :=
  pyOr err (pyOr out ("Unknown runtime error"))

/-- The ordered substring classification of `run_node` lines 160-173,
returning `(error_type, error)`. -/
def classifyError (out err : String) : String × String :=
  let m := selectedText out err
  if pyIn ("No module named") m then ("ImportError", "Module import failed: " ++ m)
  else if pyIn ("ImportError") m then ("ImportError", "Import error: " ++ m)
  else if pyIn ("SyntaxError") m then ("SyntaxError", "Syntax error: " ++ m)
  else ("RuntimeError", "Runtime error: " ++ m)

/-- `run_node` (src/src/nodes/run_node.py:31-220): aborts when the repo
root or `start_mcp.py` is missing; otherwise runs the smoke invocation,
stores the plugin test result and `run_result` (output truncated to a
1000-character tail), classifies on failure, appends a
`PluginSmokeFailed` record with severity high, and ends with
`status = "running"` and `workflow_status` preserved. -/
def run_node (o : Oracle) (s : WorkflowState) : WorkflowState :=
  if s.repoOk && o.startOk then
    let passed := o.execCode == 0
    let rr : RunResult :=
      if passed then
        { success := true, exit_code := o.execCode,
          stdout := tail1000 o.execOut, stderr := tail1000 o.execErr,
          error := "", error_type := "" }
      else
        { success := false, exit_code := o.execCode,
          stdout := tail1000 o.execOut, stderr := tail1000 o.execErr,
          error := (classifyError o.execOut o.execErr).2,
          error_type := (classifyError o.execOut o.execErr).1 }
    let s1 := { s with tests_plugin := some passed, run_result := some rr }
    let s2 := if passed then s1 else
      { s1 with errors := s1.errors ++
          [⟨"RunNode", "PluginSmokeFailed", "high", rr.error, "record_only"⟩] }
    { s2 with status := "running", workflow_status := s2.workflow_status }
  else
    failState s ⟨"RunNode", "InvalidInput", "", "Missing start_mcp.py", "abort"⟩

/-- The dict `_intelligent_error_analysis` returns in its early-return
branch is the state dict itself: truthy, and carrying neither a
`next_action` nor a `confidence` key (no operation ever writes those keys
into the state), so every later projection takes its default. -/
def stateAsEA : EA := { next_action := none, confidence := none }

/-- `_intelligent_error_analysis` (src/src/nodes/review_node.py:28-85).
Guard inversion faithfully embedded: the function is only called on a
failed run, and its first test `if not run_result.get("success", False)`
is then true, so it resets `fix_retry_count`, marks both status fields
failed, and returns the state dict itself; the prompt-building and
LLM-parsing code below that guard is unreachable.  When
`get_llm_service()` raises (`¬ o.llmOk`), the surrounding handler returns
the empty dict, embedded as `none`, without touching the state. -/
def _intelligent_error_analysis (o : Oracle) (s : WorkflowState) :
    WorkflowState × Option EA :=
  if o.llmOk then
    if runSuccess s then (s, none)
    else
      ({ s with fix_retry_count := 0,
                generation_retry_count := s.generation_retry_count,
                workflow_status := "failed", status := "failed" }, some stateAsEA)
  else (s, none)

/-- `_apply_incremental_fixes` (src/src/nodes/review_node.py:87-109): it
returns `False` when `get_llm_service()` raises (`¬ o.llmOk`), when the
pending `run_result` carries neither an `error` text nor captured stderr
(lines 95-96), or when the repository root is missing (lines 98-102);
otherwise it returns the result of `_fix_error_with_llm`, abstracted by
the oracle field `fixOk` (the validation-and-write pipeline of that call
is embedded separately as `fixError`). -/
def _apply_incremental_fixes (o : Oracle) (s : WorkflowState) : Bool :=
  o.llmOk &&
    (let error_message := (s.run_result.map (·.error)).getD ""
     let stderr := (s.run_result.map (·.stderr)).getD ""
     (!(error_message == "") || !(stderr == "")) && (s.repoOk && o.fixOk))

/-- `review_node` (src/src/nodes/review_node.py:388-497).  `loop_summary`
and `code_review` writes are untracked.  Note line 495: the final
`state["status"] = "running"` runs on every path that does not return
earlier, and line 496 preserves the existing `workflow_status`. -/
def review_node (o : Oracle) (s : WorkflowState) : WorkflowState :=
  if s.repoOk then
    if runSuccess s then
      { s with fix_retry_count := 0,
               generation_retry_count := s.generation_retry_count,
               status := "running", workflow_status := s.workflow_status }
    else
      let p := _intelligent_error_analysis o s
      let s2 := { p.1 with error_analysis := p.2 }
      if _apply_incremental_fixes o s2 then
        { s2 with fix_retry_count := 0, fix_applied := some true,
                  status := "running", workflow_status := s2.workflow_status }
      else
        let c := s2.fix_retry_count + 1
        let s3 := { s2 with fix_retry_count := c }
        if (5 : Nat) ≤ c then
          { s3 with workflow_status := "failed", status := "failed" }
        else
          let s4 :=
            match s3.run_result with
            | some rr => { s3 with previous_run_results := s3.previous_run_results ++ [rr],
                                   run_result := none }
            | none => s3
          { s4 with status := "running", workflow_status := s4.workflow_status }
  else
    failState s ⟨"ReviewNode", "InvalidInput", "", "repo_root path missing", "abort"⟩

/-- `finalize_node` (src/src/nodes/finalize_node.py:537-557): the terminal
verdict is decided solely by `tests["plugin"]["passed"]`; the summary and
report writing below it never touches the status fields again
(the only other writes in the file are at lines 551-556). -/
def finalize_node (s : WorkflowState) : WorkflowState :=
  if s.tests_plugin.getD false then
    { s with status := "success", workflow_status := "success" }
  else
    { s with status := "failed", workflow_status := "failed" }

/-! ## Routing (src/src/workflow.py) -/

/-- The seven stages of the graph. -/
inductive Stage where
  | download | analysis | env | generate | run | review | finalize
deriving DecidableEq

/-- A routing target: the next stage, or END. -/
inductive Target where
  | node (st : Stage)
  | finished
deriving DecidableEq

/-- `MAX_GENERATION_RETRIES` (src/src/workflow.py:15). -/
def MAX_GENERATION_RETRIES : Nat := 5

/-- `max_fix_retries` local to `route_after_review` (src/src/workflow.py:78). -/
def max_fix_retries : Nat := 10

/-- The failed-state test every router performs first. -/
def isFailed (s : WorkflowState) : Bool :=
  s.workflow_status == "failed" || s.status == "failed"

/-- `_route_or_end` (src/src/workflow.py:17-20). -/
def _route_or_end (s : WorkflowState) (next : Stage) : Target :=
  if isFailed s then Target.finished else Target.node next

/-- `has_critical_errors` (src/src/utils.py:498-525).  The block indented
under the early `return True` is dead code and is not embedded. -/
def has_critical_errors (s : WorkflowState) : Bool :=
  if !(runSuccess s) then true
  else s.errors.any (fun e =>
    e.severity == "high" || e.severity == "critical" ||
    pyIn ("No module named") e.message || pyIn ("ImportError") e.message)

/-- `should_retry_generation` (src/src/utils.py:527-529). -/
def should_retry_generation (s : WorkflowState) (maxRetries : Nat) : Bool :=
  decide (s.generation_retry_count < maxRetries) && has_critical_errors s

/-- `should_stop_workflow` (src/src/utils.py:531-543). -/
def should_stop_workflow (s : WorkflowState) : Bool × String :=
  match s.error_analysis with
  | none => (false, "")
  | some ea =>
    if ea.next_action.getD ("continue") == "environment_fix" then
      (true, "Error analysis suggests fixing environment configuration")
    else if ea.confidence.getD (mkRat 1 2) < mkRat 3 10 then
      (true, "Error analysis confidence too low")
    else (false, "")

/-- `route_after_run` (src/src/workflow.py:34-52): on a failed execution it
appends a high-severity `needs_regeneration` record to the state it was
handed and routes to review; execute always routes to review. -/
def route_after_run (s : WorkflowState) : Target × WorkflowState :=
  if isFailed s then (Target.finished, s)
  else if !(runSuccess s) then
    let e : ErrRec :=
      ⟨"RunNode", "RuntimeError", "high",
        (s.run_result.map (·.error)).getD ("Execution failed"), "needs_regeneration"⟩
    (Target.node Stage.review, { s with errors := s.errors ++ [e] })
  else (_route_or_end s Stage.review, s)

/-- `route_after_review` (src/src/workflow.py:54-92). -/
def route_after_review (s : WorkflowState) : Target × WorkflowState :=
  if isFailed s then (Target.finished, s)
  else if (should_stop_workflow s).1 then
    (Target.finished, { s with workflow_status := "failed", status := "failed" })
  else
    match s.error_analysis with
    | some _ =>
      if s.fix_applied.getD false && s.status == "running" then
        (Target.node Stage.run, { s with error_analysis := none, fix_applied := none })
      else if s.fix_retry_count < max_fix_retries then
        (Target.node Stage.review, s)
      else if should_retry_generation s MAX_GENERATION_RETRIES then
        (Target.node Stage.generate, s)
      else
        (Target.finished, { s with workflow_status := "failed", status := "failed" })
    | none => (_route_or_end s Stage.finalize, s)

/-- One orchestrator step: run the stage function, then its router. -/
def stepNode (o : Oracle) : Stage → WorkflowState → Target × WorkflowState
  | Stage.download, s => let s' := download_node o s; (_route_or_end s' Stage.analysis, s')
  | Stage.analysis, s => let s' := analysis_node o s; (_route_or_end s' Stage.env, s')
  | Stage.env, s => let s' := env_node o s; (_route_or_end s' Stage.generate, s')
  | Stage.generate, s => let s' := generate_node s; (_route_or_end s' Stage.run, s')
  | Stage.run, s => route_after_run (run_node o s)
  | Stage.review, s => route_after_review (review_node o s)
  | Stage.finalize, s => (Target.finished, finalize_node s)

/-- Fuelled execution of the graph from a target.  `none` means END was
not reached within the given number of stage transitions. -/
def runW (o : Oracle) : Nat → Target → WorkflowState → Option WorkflowState
  | _, Target.finished, s => some s
  | 0, Target.node _, _ => none
  | n+1, Target.node st, s =>
      let p := stepNode o st s
      runW o n p.1 p.2

/-! ## Process runner (`_run`) -/

/-- Outcome of a `subprocess.run` call: a normal completion with exit code
and captured output, or a raised exception (spawn failure, timeout)
carrying its message. -/
inductive POutcome where
  | ok (exitCode : Int) (stdout stderr : String)
  | exc (msg : String)
deriving DecidableEq

/-- `_run` (src/src/nodes/run_node.py:12-28, src/src/nodes/env_node.py:50-65,
src/src/nodes/download_node.py:11-24): the three helpers share this body,
differing only in their default timeout (300, 1800, 600 seconds).  The
whole call is wrapped in a handler, so the helper is total: an exception
becomes the failing triple `(1, "", str(e))`.  `_run_with_env`
(env_node.py:93-111) has the same handler shape. -/
def _run (cmd : List String) (cwd : Option String) (timeout : Nat)
    (o : POutcome) : Int × String × String :=
  match cmd, cwd, timeout, o with
  | _, _, _, POutcome.ok c out err => (c, out, err)
  | _, _, _, POutcome.exc m => (1, "", m)

/-! ## File system model and the patch applier -/

/-- A file path as its list of components (joined by the separator). -/
abbrev FPath := List String

/-- File-system operations performed by `_fix_error_with_llm`:
`tempfile.NamedTemporaryFile` plus write, `os.replace`, `os.remove`. -/
inductive FSOp where
  | create (p : FPath) (c : String)
  | rename (src dst : FPath)
  | remove (p : FPath)
deriving DecidableEq

/-- A file system: association of paths to file contents. -/
abbrev FileSys := List (FPath × String)

def fsGet : FileSys → FPath → Option String
  | [], _ => none
  | (k, v) :: t, p => if k == p then some v else fsGet t p

def fsSet (fs : FileSys) (p : FPath) (c : String) : FileSys :=
  (p, c) :: fs.filter (fun e => !(e.1 == p))

def applyOp (fs : FileSys) : FSOp → FileSys
  | FSOp.create p c => fsSet fs p c
  | FSOp.remove p => fs.filter (fun e => !(e.1 == p))
  | FSOp.rename src dst =>
    match fsGet fs src with
    | some v => fsSet (fs.filter (fun e => !(e.1 == src))) dst v
    | none => fs

def applyOps (fs : FileSys) (ops : List FSOp) : FileSys := ops.foldl applyOp fs

/-- The write sequence of `_fix_error_with_llm` (review_node.py:204-211):
create and fill a temporary file in the directory of the target
(`dir=os.path.dirname(full_path)`), then `os.replace` it over the target
in one step. -/
def atomicWriteOps (target : FPath) (tmpbase : String) (content : String) : List FSOp :=
  [FSOp.create (target.dropLast ++ [tmpbase]) content,
   FSOp.rename (target.dropLast ++ [tmpbase]) target]

/-- `_sanitize_python_source` (review_node.py:382-386): strip a leading
byte-order mark, normalize line endings, ensure a trailing newline. -/
def _sanitize_python_source (src : String) : String :=
  let d1 := if leadsWith ['\uFEFF'] src.data then src.data.drop 1 else src.data
  let d2 := normalizeNewlines d1
  if leadsWith ['\n'] d2.reverse then String.mk d2 else String.mk (d2 ++ ['\n'])

/-- `_extract_code_or_plain` (review_node.py:249-258): a fenced code block
if one is found, else the lines after a leading `File path:` line.  The
regex search of `_extract_code_block` is supplied as a function argument.
(Python `splitlines` also splits on `\r` and drops a trailing empty line;
the sanitizer applied to the result normalizes both differences away.) -/
def _extract_code_or_plain (extractCodeBlock : String → Option String)
    (text : String) : Option String :=
  match extractCodeBlock text with
  | some c => some c
  | none =>
    match splitOnChar '\n' text.data with
    | [] => none
    | l0 :: rest =>
      if leadsWith ("File path:").data (trimChars l0) then
        some (String.intercalate ("\n") (rest.map (fun l => String.mk l)))
      else none

/-- Python `a or b` where `a` is an optional string and the empty string is
falsy: the shape of `file_path = _extract_file_path(response) or target_path`. -/
def pyOrOpt (a b : Option String) : Option String :=
  match a with
  | some p => if p == "" then b else some p
  | none => b

/-- The single repair re-request issued at review_node.py:184: the original
user prompt with the parse error appended. -/
def mkRepairPrompt (userPrompt e : String) : String :=
  userPrompt ++ "\n\nLast generation did not conform to protocol/syntax error: " ++ e ++
    "\nPlease strictly follow the protocol and output only complete replacement."

/-- External behaviour consumed by `_fix_error_with_llm`: the two LLM
responses, the regex extractors (`_extract_file_path`,
`_extract_code_block`), the `ast.parse` verdict (`none` when the text
parses, `some err` with the error text otherwise), the random basename
`tempfile` chooses, and whether `os.replace` succeeds. -/
structure FixOracle where
  response : String
  retryResponse : String
  extractFilePath : String → Option String
  extractCodeBlock : String → Option String
  parseErr : String → Option String
  tmpbase : String
  replaceOk : Bool

/-- Result of the embedded `_fix_error_with_llm`: the returned boolean, the
file replacement actually performed (path and content), the prompts issued
to the generation service in order, and the file-system operations. -/
structure FixResult where
  ok : Bool
  written : Option (FPath × String)
  requests : List String
  ops : List FSOp
deriving DecidableEq

/-- The write step of `_fix_error_with_llm` (review_node.py:202-219):
atomic temp-file-plus-rename; when `os.replace` raises, the temp file is
removed and `False` is returned with the target untouched. -/
def fixWrite (o : FixOracle) (fullPath : FPath) (content : String)
    (reqs : List String) : FixResult :=
  if o.replaceOk then
    ⟨true, some (fullPath, content), reqs, atomicWriteOps fullPath o.tmpbase content⟩
  else
    ⟨false, none, reqs,
      [FSOp.create (fullPath.dropLast ++ [o.tmpbase]) content,
       FSOp.remove (fullPath.dropLast ++ [o.tmpbase])]⟩

/-- `_fix_error_with_llm` (review_node.py:111-225) from the point where the
first LLM response has been received: path resolution (the inferred
`targetPath` is the fallback), body extraction, sanitation, the
syntax-only gate with its single repair re-request for a `.py` target,
and the atomic write.  On the retry the code extracts with
`_extract_code_block` only (the plain shape is not accepted), and the
write still targets the originally resolved path: the recomputed
`retry_full_path` is never used. -/
def fixError (o : FixOracle) (repoRoot : FPath) (targetPath : Option String)
    (userPrompt : String) : FixResult :=
  if o.response == "" then ⟨false, none, [userPrompt], []⟩
  else
    match pyOrOpt (o.extractFilePath o.response) targetPath with
    | none => ⟨false, none, [userPrompt], []⟩
    | some filePath =>
      if filePath == "" then ⟨false, none, [userPrompt], []⟩
      else
        match _extract_code_or_plain o.extractCodeBlock o.response with
        | none => ⟨false, none, [userPrompt], []⟩
        | some body =>
          let fullPath : FPath := repoRoot ++ splitSlash filePath
          let text1 := _sanitize_python_source body
          if strEnds (".py") filePath then
            match o.parseErr text1 with
            | none => fixWrite o fullPath text1 [userPrompt]
            | some e =>
              let reqs := [userPrompt, mkRepairPrompt userPrompt e]
              if o.retryResponse == "" then ⟨false, none, reqs, []⟩
              else
                match o.extractCodeBlock o.retryResponse with
                | none => ⟨false, none, reqs, []⟩
                | some rbody =>
                  let text2 := _sanitize_python_source rbody
                  match o.parseErr text2 with
                  | some _ => ⟨false, none, reqs, []⟩
                  | none => fixWrite o fullPath text2 reqs
          else fixWrite o fullPath text1 [userPrompt]

/-! ## Concrete states and oracles used in counterexamples and witnesses -/

/-- A fresh state as `run_workflow` builds it (src/src/workflow.py:127-140),
projected to the tracked fields, with the repository already cloned. -/
def baseState : WorkflowState :=
  { status := "running", workflow_status := "running", repo_name := "repo",
    repo_root := "/w/repo", repoOk := true, run_result := none,
    error_analysis := none, fix_applied := none, fix_retry_count := 0,
    generation_retry_count := 0, errors := [], previous_run_results := [],
    tests_plugin := none, tests_original := none, env := none }

/-- The `run_result` written by `run_node` for a passing smoke test with
empty captured output. -/
def rrPass : RunResult :=
  { success := true, exit_code := 0, stdout := "", stderr := "",
    error := "", error_type := "" }

/-- A failing `run_result` (exit code 1, empty captured output). -/
def rrFail : RunResult :=
  { success := false, exit_code := 1, stdout := "", stderr := "",
    error := "", error_type := "" }

/-- An oracle for a fully healthy infrastructure in which conda is absent,
the venv is created, the smoke test passes, and the LLM is reachable. -/
def oStar : Oracle :=
  { downloadOk := true, cloneOk := true, repoRootPath := "/w/repo",
    analysisOk := true, condaAvailable := false, condaCreateOk := false,
    venvOk := true, isWindows := false, ts := "123456", startOk := true,
    execCode := 0, execOut := "", execErr := "", llmOk := true, fixOk := false }

/-- The light environment `env_node` creates under `oStar` on `baseState`. -/
def envStar : Env :=
  { type := "venv", name := "repo_123456_venv",
    path := "/w/repo/repo_123456_venv",
    exec_cmd := ["/w/repo/repo_123456_venv/bin/python"], python := "3.10" }

/-- An input state carrying a stale truthy `error_analysis` together with a
successful execution result and no `fix_applied` marker.  Every stage maps
it to itself, and `route_after_review` routes it back to review. -/
def sStar : WorkflowState :=
  { baseState with run_result := some rrPass, error_analysis := some stateAsEA,
                   tests_plugin := some true, env := some envStar }

/-- A state entering review after a failed execution. -/
def sFailRun : WorkflowState := { baseState with run_result := some rrFail }

/-- The failing `run_result` that `run_node` writes under `oAllFail` (exit
code 1, captured stderr `boom`): a reachable record whose error text is
non-empty, so the direct-repair attempt is not short-circuited by the
empty-text guard of `_apply_incremental_fixes`. -/
def rrFailBoom : RunResult :=
  { success := false, exit_code := 1, stdout := "", stderr := "boom",
    error := "Runtime error: boom", error_type := "RuntimeError" }

/-- A state entering review after that failing execution. -/
def sFailBoom : WorkflowState :=
  { baseState with run_result := some rrFailBoom, tests_plugin := some false }

/-- Oracle: LLM reachable, direct fix fails. -/
def oNoFix : Oracle := { oStar with llmOk := true, fixOk := false }

/-- Oracle: LLM reachable, direct fix succeeds. -/
def oFix : Oracle := { oStar with llmOk := true, fixOk := true }

/-- Oracle for a full run in which every smoke execution fails (exit code 1,
a plain runtime error) and every direct fix fails. -/
def oAllFail : Oracle := { oStar with execCode := 1, execErr := "boom" }

/-- Oracle with neither conda nor a creatable venv. -/
def oNoEnv : Oracle := { oStar with condaAvailable := false, venvOk := false }

/-- A state whose plugin smoke test passed. -/
def sPass : WorkflowState := { baseState with tests_plugin := some true }

/-- Same plugin verdict as `sPass` but a failed original-project test and a
non-empty error list: used to witness that the Finalize verdict ignores
both. -/
def sPassNoisy : WorkflowState :=
  { baseState with tests_plugin := some true, tests_original := some false,
                   errors := [⟨"RunNode", "PluginSmokeFailed", "high", "m", "record_only"⟩] }

/-- A state already marked failed in `workflow_status`. -/
def sWfFailed : WorkflowState := { baseState with workflow_status := "failed" }

/-- A one-file file system for the atomic-write witness. -/
def fs0 : FileSys := [(["w", "a.py"], "old")]

/-- A concrete fix oracle: the first response carries a plain body that
fails the parse, the retry response carries a fenced body that parses. -/
def fixOracleW : FixOracle :=
  { response := "File path: a.py\nx=1", retryResponse := "r",
    extractFilePath := fun _ => some ("a.py"),
    extractCodeBlock := fun t => if t == "r" then some ("y=2") else none,
    parseErr := fun t => if t == "y=2\n" then none else some ("bad syntax"),
    tmpbase := "tmpXYZ", replaceOk := true }

/-- Position of a stage in the forward order of the graph. -/
def idx : Stage → Nat
  | Stage.download => 0
  | Stage.analysis => 1
  | Stage.env => 2
  | Stage.generate => 3
  | Stage.run => 4
  | Stage.review => 5
  | Stage.finalize => 6

/-- Modelled from the spec, for refinement comparison only: "classify:
ordered substring match over combined captured output (module-not-found
family to ImportError; syntax-error markers to SyntaxError; else
RuntimeError/Timeout)", the combined text being stdout and stderr
together. -/
def specCombinedClassify (text : String) : String :=
  if pyIn ("No module named") text then "ImportError"
  else if pyIn ("ImportError") text then "ImportError"
  else if pyIn ("SyntaxError") text then "SyntaxError"
  else "RuntimeError"

/-- The combined captured output, as the spec words it: stdout and stderr
together. -/
def combinedText (out err : String) : String := out ++ "\n" ++ err

/-! # Helper lemmas -/

theorem runW_node (o : Oracle) (n : Nat) (st : Stage) (s : WorkflowState) :
    runW o (n+1) (Target.node st) s = runW o n (stepNode o st s).1 (stepNode o st s).2 := rfl

theorem runW_finished (o : Oracle) (n : Nat) (s : WorkflowState) :
    runW o n Target.finished s = some s := by cases n <;> rfl

/-! # Claim theorems -/

/-- C5: the process-execution substrate never raises: for every command,
working directory and timeout, `_run` returns a result, and when the
spawn fails or the timeout elapses (the exception outcome) the result is
failing — nonzero exit code, empty stdout — with the failure text in the
stderr component; a normal completion is passed through unchanged. -/
theorem C5_run_never_raises :
    ∀ (cmd : List String) (cwd : Option String) (timeout : Nat) (m : String),
      (_run cmd cwd timeout (POutcome.exc m)).1 ≠ 0 ∧
      (_run cmd cwd timeout (POutcome.exc m)).2.1 = "" ∧
      (_run cmd cwd timeout (POutcome.exc m)).2.2 = m ∧
      ∀ (c : Int) (out err : String),
        _run cmd cwd timeout (POutcome.ok c out err) = (c, out, err) := by
  intro cmd cwd t m
  exact ⟨by simp [_run], rfl, rfl, fun c out err => rfl⟩

/-- C8 counterexample: the classification is not a function of the combined
captured output.  With stdout carrying a syntax-error marker and a
non-empty stderr without markers, `run_node` classifies from stderr alone
and yields RuntimeError, while the ordered substring match over the
combined text yields SyntaxError. -/
theorem C8_counterexample :
    (classifyError ("SyntaxError: invalid syntax") ("exit status 1")).1 = "RuntimeError" ∧
    specCombinedClassify (combinedText ("SyntaxError: invalid syntax") ("exit status 1"))
      = "SyntaxError" ∧
    (classifyError ("SyntaxError: invalid syntax") ("exit status 1")).1 ≠
      specCombinedClassify (combinedText ("SyntaxError: invalid syntax") ("exit status 1")) := by
  decide

/-- C8 amended: for every failing execution the error kind is derived by an
ordered substring match over the captured stderr when non-empty, else
stdout, else a fixed fallback (not the combined output): module-not-found
text yields ImportError, then an explicit ImportError marker yields
ImportError, then a syntax-error marker yields SyntaxError, and any other
text yields RuntimeError; the kind is always drawn from the set
ImportError, SyntaxError, RuntimeError, Timeout, Unknown. -/
theorem C8_amended : ∀ (out err : String),
    ((classifyError out err).1 = "ImportError" ∨ (classifyError out err).1 = "SyntaxError" ∨
     (classifyError out err).1 = "RuntimeError" ∨ (classifyError out err).1 = "Timeout" ∨
     (classifyError out err).1 = "Unknown") ∧
    (pyIn ("No module named") (selectedText out err) = true →
       (classifyError out err).1 = "ImportError") ∧
    (pyIn ("No module named") (selectedText out err) = false →
     pyIn ("ImportError") (selectedText out err) = true →
       (classifyError out err).1 = "ImportError") ∧
    (pyIn ("No module named") (selectedText out err) = false →
     pyIn ("ImportError") (selectedText out err) = false →
     pyIn ("SyntaxError") (selectedText out err) = true →
       (classifyError out err).1 = "SyntaxError") ∧
    (pyIn ("No module named") (selectedText out err) = false →
     pyIn ("ImportError") (selectedText out err) = false →
     pyIn ("SyntaxError") (selectedText out err) = false →
       (classifyError out err).1 = "RuntimeError") := by
  intro out err
  rcases h1 : pyIn ("No module named") (selectedText out err) <;>
    rcases h2 : pyIn ("ImportError") (selectedText out err) <;>
      rcases h3 : pyIn ("SyntaxError") (selectedText out err) <;>
        simp [classifyError, h1, h2, h3]

theorem C8_amended_witness :
    pyIn ("No module named") (selectedText ("") ("No module named x")) = true ∧
    (classifyError ("") ("No module named x")).1 = "ImportError" :=
  ⟨by decide, (C8_amended ("") ("No module named x")).2.1 (by decide)⟩

/-- C10: the Finalize stage decides the terminal verdict solely from the
plugin smoke-test result: both status fields become success exactly when
the plugin test passed and failed otherwise, and two states agreeing on
the plugin test flag receive identical verdicts whatever their original
test outcome, errors and warnings. -/
theorem C10_finalize_verdict : ∀ (s1 s2 : WorkflowState),
    ((finalize_node s1).status = "success" ↔ s1.tests_plugin.getD false = true) ∧
    ((finalize_node s1).workflow_status = "success" ↔ s1.tests_plugin.getD false = true) ∧
    ((finalize_node s1).status = "failed" ↔ s1.tests_plugin.getD false = false) ∧
    ((finalize_node s1).workflow_status = "failed" ↔ s1.tests_plugin.getD false = false) ∧
    (s1.tests_plugin.getD false = s2.tests_plugin.getD false →
      (finalize_node s1).status = (finalize_node s2).status ∧
      (finalize_node s1).workflow_status = (finalize_node s2).workflow_status) := by
  intro s1 s2
  cases h1 : s1.tests_plugin.getD false <;> cases h2 : s2.tests_plugin.getD false <;>
    simp [finalize_node, h1, h2]

theorem C10_finalize_verdict_witness :
    sPass.tests_plugin.getD false = sPassNoisy.tests_plugin.getD false ∧
    (finalize_node sPass).status = (finalize_node sPassNoisy).status ∧
    (finalize_node sPass).status = "success" :=
  ⟨by decide, ((C10_finalize_verdict sPass sPassNoisy).2.2.2.2 (by decide)).1, by decide⟩

theorem ea_download (o : Oracle) (s : WorkflowState) :
    (download_node o s).error_analysis = s.error_analysis := by
  simp only [download_node, failState]
  split <;> rfl

theorem ea_analysis (o : Oracle) (s : WorkflowState) :
    (analysis_node o s).error_analysis = s.error_analysis := by
  simp only [analysis_node, failState]
  split <;> rfl

theorem ea_env (o : Oracle) (s : WorkflowState) :
    (env_node o s).error_analysis = s.error_analysis := by
  simp only [env_node, failState]
  split
  · split <;> rfl
  · rfl

theorem ea_generate (s : WorkflowState) :
    (generate_node s).error_analysis = s.error_analysis := rfl

theorem ea_run (o : Oracle) (s : WorkflowState) :
    (run_node o s).error_analysis = s.error_analysis := by
  simp only [run_node, failState]
  split
  · split <;> rfl
  · rfl

theorem route_review_failed (s : WorkflowState) (hf : isFailed s = true) :
    route_after_review s = (Target.finished, s) := by
  simp [route_after_review, hf]

theorem route_review_no_ea (s : WorkflowState) (hea : s.error_analysis = none) :
    (route_after_review s).1 = Target.finished ∨
    ((route_after_review s).1 = Target.node Stage.finalize ∧ (route_after_review s).2 = s) := by
  by_cases hf : isFailed s
  · left; simp [route_after_review, hf]
  · have hstop : should_stop_workflow s = (false, "") := by
      simp [should_stop_workflow, hea]
    right
    constructor <;> simp [route_after_review, hf, hstop, hea, _route_or_end]

theorem review_ea_of_success (o : Oracle) (s : WorkflowState)
    (hrepo : s.repoOk = true) (hrs : runSuccess s = true) :
    (review_node o s).error_analysis = s.error_analysis := by
  simp [review_node, hrepo, hrs]

theorem review_wf_failed_of_llm (o : Oracle) (s : WorkflowState)
    (hrepo : s.repoOk = true) (hrs : runSuccess s = false) (hllm : o.llmOk = true) :
    (review_node o s).workflow_status = "failed" := by
  simp only [review_node, _apply_incremental_fixes, _intelligent_error_analysis, hrepo, hrs, hllm]
  (repeat' split) <;> simp_all

theorem review_ea_none_of_no_llm (o : Oracle) (s : WorkflowState)
    (hrepo : s.repoOk = true) (hrs : runSuccess s = false) (hllm : o.llmOk = false) :
    (review_node o s).error_analysis = none := by
  simp only [review_node, _apply_incremental_fixes, _intelligent_error_analysis, hrepo, hrs, hllm]
  (repeat' split) <;> simp_all

theorem review_wf_of_bad_repo (o : Oracle) (s : WorkflowState) (h : s.repoOk = false) :
    (review_node o s).workflow_status = "failed" := by
  simp [review_node, h, failState]

theorem review_step (o : Oracle) (s : WorkflowState) (h : s.error_analysis = none) :
    (stepNode o Stage.review s).1 = Target.finished ∨
    ((stepNode o Stage.review s).1 = Target.node Stage.finalize ∧
     (stepNode o Stage.review s).2.error_analysis = none) := by
  simp only [stepNode]
  by_cases hrepo : s.repoOk = true
  · by_cases hrs : runSuccess s = true
    · have hea : (review_node o s).error_analysis = none :=
        (review_ea_of_success o s hrepo hrs).trans h
      rcases route_review_no_ea _ hea with hfin | ⟨hnode, hst⟩
      · exact Or.inl hfin
      · exact Or.inr ⟨hnode, by rw [hst]; exact hea⟩
    · by_cases hllm : o.llmOk = true
      · left
        have hwf := review_wf_failed_of_llm o s hrepo (by simpa using hrs) hllm
        have hf : isFailed (review_node o s) = true := by simp [isFailed, hwf]
        rw [route_review_failed _ hf]
      · have hea := review_ea_none_of_no_llm o s hrepo (by simpa using hrs)
          (by simpa using hllm)
        rcases route_review_no_ea _ hea with hfin | ⟨hnode, hst⟩
        · exact Or.inl hfin
        · exact Or.inr ⟨hnode, by rw [hst]; exact hea⟩
  · left
    have hwf := review_wf_of_bad_repo o s (by simpa using hrepo)
    have hf : isFailed (review_node o s) = true := by simp [isFailed, hwf]
    rw [route_review_failed _ hf]

theorem step_progress (o : Oracle) (st : Stage) (s : WorkflowState)
    (h : s.error_analysis = none) :
    (stepNode o st s).1 = Target.finished ∨
    (∃ st', (stepNode o st s).1 = Target.node st' ∧ idx st < idx st' ∧
      (stepNode o st s).2.error_analysis = none) := by
  cases st
  case download =>
    simp only [stepNode]
    unfold _route_or_end
    split
    · exact Or.inl rfl
    · exact Or.inr ⟨Stage.analysis, rfl, by decide, (ea_download o s).trans h⟩
  case analysis =>
    simp only [stepNode]
    unfold _route_or_end
    split
    · exact Or.inl rfl
    · exact Or.inr ⟨Stage.env, rfl, by decide, (ea_analysis o s).trans h⟩
  case env =>
    simp only [stepNode]
    unfold _route_or_end
    split
    · exact Or.inl rfl
    · exact Or.inr ⟨Stage.generate, rfl, by decide, (ea_env o s).trans h⟩
  case generate =>
    simp only [stepNode]
    unfold _route_or_end
    split
    · exact Or.inl rfl
    · exact Or.inr ⟨Stage.run, rfl, by decide, (ea_generate s).trans h⟩
  case run =>
    simp only [stepNode]
    unfold route_after_run
    split
    · exact Or.inl rfl
    · split
      · exact Or.inr ⟨Stage.review, rfl, by decide, by simp [ea_run, h]⟩
      · unfold _route_or_end
        split
        · exact Or.inl rfl
        · exact Or.inr ⟨Stage.review, rfl, by decide, (ea_run o s).trans h⟩
  case review =>
    rcases review_step o s h with hfin | ⟨hnode, hea⟩
    · exact Or.inl hfin
    · exact Or.inr ⟨Stage.finalize, hnode, by decide, hea⟩
  case finalize =>
    exact Or.inl rfl

theorem runW_some_of_ea_none (o : Oracle) :
    ∀ (k : Nat) (st : Stage) (s : WorkflowState),
      s.error_analysis = none → 7 - idx st ≤ k →
      (runW o k (Target.node st) s).isSome = true := by
  intro k
  induction k with
  | zero =>
    intro st s _ hk
    exfalso
    cases st <;> simp [idx] at hk
  | succ k ih =>
    intro st s h hk
    rw [runW_node]
    rcases step_progress o st s h with hfin | ⟨st', hst', hlt, hea⟩
    · rw [hfin, runW_finished]
      rfl
    · rw [hst']
      refine ih st' _ hea ?_
      have h6 : idx st' ≤ 6 := by cases st' <;> simp [idx]
      omega

theorem stepStar_download :
    stepNode oStar Stage.download sStar = (Target.node Stage.analysis, sStar) := by decide

theorem stepStar_analysis :
    stepNode oStar Stage.analysis sStar = (Target.node Stage.env, sStar) := by decide

theorem stepStar_env :
    stepNode oStar Stage.env sStar = (Target.node Stage.generate, sStar) := by decide

theorem stepStar_generate :
    stepNode oStar Stage.generate sStar = (Target.node Stage.run, sStar) := by decide

theorem stepStar_run :
    stepNode oStar Stage.run sStar = (Target.node Stage.review, sStar) := by decide

theorem stepStar_review :
    stepNode oStar Stage.review sStar = (Target.node Stage.review, sStar) := by decide

theorem runW_review_star (n : Nat) :
    runW oStar n (Target.node Stage.review) sStar = none := by
  induction n with
  | zero => rfl
  | succ k ih =>
    rw [runW_node, stepStar_review]
    exact ih

theorem runW_download_star : ∀ n,
    runW oStar n (Target.node Stage.download) sStar = none := by
  intro n
  match n with
  | 0 => rfl
  | 1 => rfl
  | 2 => rfl
  | 3 => rfl
  | 4 => rfl
  | (m+5) =>
    have h : runW oStar (m+5) (Target.node Stage.download) sStar
           = runW oStar m (Target.node Stage.review) sStar := by
      rw [runW_node, stepStar_download, runW_node, stepStar_analysis,
          runW_node, stepStar_env, runW_node, stepStar_generate,
          runW_node, stepStar_run]
    rw [h]
    exact runW_review_star m

/-- C1 counterexample: there is no constant completing the bound
`max_outer * (max_inner + 1)` to a transition bound valid for every input
state.  On an input state carrying a stale truthy `error_analysis`
together with a successful execution result and no fix-applied marker,
`route_after_review` routes review back to itself for ever: the review
stage resets `fix_retry_count` to 0 on each pass, so no measure
decreases and END is never reached. -/
theorem C1_counterexample :
    ¬ ∃ C : Nat, ∀ (s : WorkflowState) (o : Oracle),
      ∃ n, n ≤ MAX_GENERATION_RETRIES * (max_fix_retries + 1) + C ∧
        (runW o n (Target.node Stage.download) s).isSome = true := by
  rintro ⟨C, h⟩
  obtain ⟨n, -, hsome⟩ := h sStar oStar
  rw [runW_download_star n] at hsome
  simp at hsome

/-- C1 amended: for every input state without a pending `error_analysis`
marker — in particular every initial state built by `run_workflow` — the
orchestrator reaches END within `max_outer * (max_inner + 1)` plus a
constant number of stage transitions (the run in fact ends within 7
transitions, as the review loop is never re-entered: a failed run is
marked failed by the error-analysis step and routed to END). -/
theorem C1_amended_termination : ∀ (o : Oracle) (s : WorkflowState),
    s.error_analysis = none →
    (runW o (MAX_GENERATION_RETRIES * (max_fix_retries + 1) + 8)
      (Target.node Stage.download) s).isSome = true := by
  intro o s h
  exact runW_some_of_ea_none o _ Stage.download s h (by decide)

theorem C1_amended_termination_witness :
    baseState.error_analysis = none ∧
    (runW oStar (MAX_GENERATION_RETRIES * (max_fix_retries + 1) + 8)
      (Target.node Stage.download) baseState).isSome = true :=
  ⟨rfl, C1_amended_termination oStar baseState rfl⟩

/-- C4 counterexample: a run in which every smoke execution fails and every
direct fix fails does not reach the configured maxima.  Under an oracle
where the execution always fails and the repair always fails, the whole
workflow reaches Terminal-Failure after a single Review pass with
`fix_retry_count = 1` (not the inner maximum, whether read as the
in-stage cap 5 or the routing cap 10) and `generation_retry_count = 0`
(not the outer maximum 5): the error-analysis step resets the inner
counter and marks the run failed, so neither tier of retries happens. -/
theorem C4_counterexample :
    (runW oAllFail 63 (Target.node Stage.download) baseState).isSome = true ∧
    ((runW oAllFail 63 (Target.node Stage.download) baseState).getD baseState).workflow_status
      = "failed" ∧
    ((runW oAllFail 63 (Target.node Stage.download) baseState).getD baseState).fix_retry_count
      = 1 ∧
    ((runW oAllFail 63 (Target.node Stage.download) baseState).getD baseState).fix_retry_count
      ≠ 5 ∧
    ((runW oAllFail 63 (Target.node Stage.download) baseState).getD baseState).fix_retry_count
      ≠ max_fix_retries ∧
    ((runW oAllFail 63 (Target.node Stage.download) baseState).getD baseState).generation_retry_count
      = 0 ∧
    ((runW oAllFail 63 (Target.node Stage.download) baseState).getD baseState).generation_retry_count
      ≠ MAX_GENERATION_RETRIES := by
  decide

/-- C4 amended: every entry into Execute with fresh counters, a failing
smoke execution and a failing direct fix reaches Terminal-Failure within
four further transitions, with `fix_retry_count = 1` and
`generation_retry_count` unchanged: the exhaustion scenario of the claim
(max_inner failed fixes, then max_outer failed regenerations) never
occurs. -/
theorem C4_amended : ∀ (o : Oracle) (s : WorkflowState),
    s.status = "running" → s.workflow_status = "running" →
    s.error_analysis = none → s.fix_retry_count = 0 →
    s.repoOk = true → o.startOk = true → o.execCode ≠ 0 → o.fixOk = false →
    (runW o 4 (Target.node Stage.run) s).isSome = true ∧
    ((runW o 4 (Target.node Stage.run) s).map (·.workflow_status)) = some ("failed") ∧
    ((runW o 4 (Target.node Stage.run) s).map (·.fix_retry_count)) = some 1 ∧
    ((runW o 4 (Target.node Stage.run) s).map (·.generation_retry_count)) =
      some s.generation_retry_count := by
  intro o s h1 h2 h3 h4 h5 h6 h7 h8
  have hbe : (o.execCode == 0) = false := beq_eq_false_iff_ne.mpr h7
  rw [show (4:Nat) = 3+1 from rfl, runW_node]
  have t1 : (stepNode o Stage.run s).1 = Target.node Stage.review := by
    simp [stepNode, route_after_run, run_node, isFailed, runSuccess, h1, h2, h5, h6, hbe]
  rw [t1]
  set s1 := (stepNode o Stage.run s).2 with hs1
  have a1 : s1.status = "running" := by
    simp [hs1, stepNode, route_after_run, run_node, isFailed, runSuccess, h1, h2, h5, h6, hbe]
  have a2 : s1.workflow_status = "running" := by
    simp [hs1, stepNode, route_after_run, run_node, isFailed, runSuccess, h1, h2, h5, h6, hbe]
  have a3 : s1.error_analysis = none := by
    simp [hs1, stepNode, route_after_run, run_node, isFailed, runSuccess, h1, h2, h3, h5, h6, hbe]
  have a4 : s1.fix_retry_count = 0 := by
    simp [hs1, stepNode, route_after_run, run_node, isFailed, runSuccess, h1, h2, h4, h5, h6, hbe]
  have a5 : s1.generation_retry_count = s.generation_retry_count := by
    simp [hs1, stepNode, route_after_run, run_node, isFailed, runSuccess, h1, h2, h5, h6, hbe]
  have a6 : s1.repoOk = true := by
    simp [hs1, stepNode, route_after_run, run_node, isFailed, runSuccess, h1, h2, h5, h6, hbe]
  have a8 : s1.run_result = some
      { success := false, exit_code := o.execCode,
        stdout := tail1000 o.execOut, stderr := tail1000 o.execErr,
        error := (classifyError o.execOut o.execErr).2,
        error_type := (classifyError o.execOut o.execErr).1 } := by
    simp [hs1, stepNode, route_after_run, run_node, isFailed, runSuccess, h1, h2, h5, h6, hbe]
  have a9 : s1.tests_plugin = some false := by
    simp [hs1, stepNode, route_after_run, run_node, isFailed, runSuccess, h1, h2, h5, h6, hbe]
  rw [show (3:Nat) = 2+1 from rfl, runW_node]
  cases hllm : o.llmOk
  case false =>
    have t2 : (stepNode o Stage.review s1).1 = Target.node Stage.finalize := by
      simp [stepNode, review_node, _apply_incremental_fixes, _intelligent_error_analysis, route_after_review,
        should_stop_workflow, isFailed, runSuccess, _route_or_end,
        hllm, h8, a1, a2, a4, a6, a8]
    rw [t2]
    set s2 := (stepNode o Stage.review s1).2 with hs2
    have b1 : s2.tests_plugin = some false := by
      simp [hs2, stepNode, review_node, _apply_incremental_fixes, _intelligent_error_analysis, route_after_review,
        should_stop_workflow, isFailed, runSuccess, _route_or_end,
        hllm, h8, a1, a2, a4, a6, a8, a9]
    have b2 : s2.fix_retry_count = 1 := by
      simp [hs2, stepNode, review_node, _apply_incremental_fixes, _intelligent_error_analysis, route_after_review,
        should_stop_workflow, isFailed, runSuccess, _route_or_end,
        hllm, h8, a1, a2, a4, a6, a8]
    have b3 : s2.generation_retry_count = s.generation_retry_count := by
      simp [hs2, stepNode, review_node, _apply_incremental_fixes, _intelligent_error_analysis, route_after_review,
        should_stop_workflow, isFailed, runSuccess, _route_or_end,
        hllm, h8, a1, a2, a4, a5, a6, a8]
    rw [show (2:Nat) = 1+1 from rfl, runW_node]
    have t3 : stepNode o Stage.finalize s2 = (Target.finished, finalize_node s2) := rfl
    rw [t3]
    rw [runW_finished]
    have c1 : (finalize_node s2).workflow_status = "failed" := by
      simp [finalize_node, b1]
    have c2 : (finalize_node s2).fix_retry_count = s2.fix_retry_count := by
      simp [finalize_node]
      split <;> rfl
    have c3 : (finalize_node s2).generation_retry_count = s2.generation_retry_count := by
      simp [finalize_node]
      split <;> rfl
    simp [Option.map, c1, c2, c3, b2, b3]
  case true =>
    have t2 : (stepNode o Stage.review s1).1 = Target.finished := by
      have hwf := review_wf_failed_of_llm o s1 a6 (by simp [runSuccess, a8]) hllm
      have hf : isFailed (review_node o s1) = true := by simp [isFailed, hwf]
      simp [stepNode, route_review_failed _ hf]
    rw [t2, runW_finished]
    have b1 : (stepNode o Stage.review s1).2.workflow_status = "failed" := by
      have hwf := review_wf_failed_of_llm o s1 a6 (by simp [runSuccess, a8]) hllm
      have hf : isFailed (review_node o s1) = true := by simp [isFailed, hwf]
      simp [stepNode, route_review_failed _ hf, hwf]
    have b2 : (stepNode o Stage.review s1).2.fix_retry_count = 1 := by
      have hwf := review_wf_failed_of_llm o s1 a6 (by simp [runSuccess, a8]) hllm
      have hf : isFailed (review_node o s1) = true := by simp [isFailed, hwf]
      rw [show stepNode o Stage.review s1 = route_after_review (review_node o s1) from rfl,
          route_review_failed _ hf]
      simp [review_node, _apply_incremental_fixes, _intelligent_error_analysis, hllm, h8, a6, a8, runSuccess]
    have b3 : (stepNode o Stage.review s1).2.generation_retry_count =
        s.generation_retry_count := by
      have hwf := review_wf_failed_of_llm o s1 a6 (by simp [runSuccess, a8]) hllm
      have hf : isFailed (review_node o s1) = true := by simp [isFailed, hwf]
      rw [show stepNode o Stage.review s1 = route_after_review (review_node o s1) from rfl,
          route_review_failed _ hf]
      simp [review_node, _apply_incremental_fixes, _intelligent_error_analysis, hllm, h8, a5, a6, a8, runSuccess]
    simp [Option.map, b1, b2, b3]

theorem C4_amended_witness :
    (baseState.status = "running") ∧
    ((runW oAllFail 4 (Target.node Stage.run) baseState).map (·.fix_retry_count)) = some 1 :=
  ⟨rfl, (C4_amended oAllFail baseState rfl rfl rfl rfl rfl rfl (by decide) rfl).2.2.1⟩

/-- C2 counterexample: failure is not sticky for `status`.  On a state with
a failed execution, the error-analysis operation inside `review_node` sets
both status fields to failed, yet the final assignment of the same stage
execution (review_node.py:495) sets `status` back to running; only
`workflow_status` stays failed. -/
theorem C2_counterexample :
    (_intelligent_error_analysis oNoFix sFailRun).1.status = "failed" ∧
    (_intelligent_error_analysis oNoFix sFailRun).1.workflow_status = "failed" ∧
    (review_node oNoFix sFailRun).status = "running" ∧
    (review_node oNoFix sFailRun).workflow_status = "failed" := by
  decide

/-- C2 amended: failure is sticky for `workflow_status` but not for
`status`: every router sends a state with either status field failed to
END before any later stage executes, and the stage functions other than
Finalize never revert a failed `workflow_status`; `status`, however, is
reset to running by the final assignment of `review_node` and `run_node`
on their non-abort paths. -/
theorem C2_amended : ∀ (o : Oracle) (s : WorkflowState),
    ((s.workflow_status = "failed" ∨ s.status = "failed") →
      _route_or_end s Stage.analysis = Target.finished ∧
      _route_or_end s Stage.env = Target.finished ∧
      _route_or_end s Stage.generate = Target.finished ∧
      _route_or_end s Stage.run = Target.finished ∧
      _route_or_end s Stage.finalize = Target.finished ∧
      (route_after_run s).1 = Target.finished ∧
      (route_after_review s).1 = Target.finished) ∧
    (s.workflow_status = "failed" →
      (download_node o s).workflow_status = "failed" ∧
      (analysis_node o s).workflow_status = "failed" ∧
      (env_node o s).workflow_status = "failed" ∧
      (generate_node s).workflow_status = "failed" ∧
      (run_node o s).workflow_status = "failed" ∧
      (review_node o s).workflow_status = "failed") := by
  intro o s
  constructor
  · intro h
    have hf : isFailed s = true := by
      rcases h with h | h <;> simp [isFailed, h]
    simp [_route_or_end, route_after_run, route_after_review, hf]
  · intro h
    refine ⟨?_, ?_, ?_, ?_, ?_, ?_⟩ <;>
      simp only [download_node, analysis_node, env_node, generate_node, run_node,
        review_node, _apply_incremental_fixes, _intelligent_error_analysis, failState] <;>
      (repeat' split) <;> simp_all

theorem C2_amended_witness :
    (sWfFailed.workflow_status = "failed" ∨ sWfFailed.status = "failed") ∧
    (route_after_review sWfFailed).1 = Target.finished ∧
    (review_node oNoFix sWfFailed).workflow_status = "failed" :=
  ⟨Or.inl (by decide),
   ((C2_amended oNoFix sWfFailed).1 (Or.inl (by decide))).2.2.2.2.2.2,
   ((C2_amended oNoFix sWfFailed).2 (by decide)).2.2.2.2.2⟩

/-- C3 counterexample: the fix-applied state that `review_node` actually
produces (repair applied, `status` running) is routed to END, not back to
Execute, and the pending fields are not deleted, because the
error-analysis step has already set `workflow_status` to failed.  The
input is the record `run_node` itself writes for a failing execution with
stderr `boom` (so the repair attempt passes the empty-text guard and its
success is a realizable outcome of `_fix_error_with_llm`). -/
theorem C3_counterexample :
    (run_node oAllFail baseState).run_result = some rrFailBoom ∧
    _apply_incremental_fixes oFix
      ((_intelligent_error_analysis oFix sFailBoom).1) = true ∧
    (review_node oFix sFailBoom).fix_applied = some true ∧
    (review_node oFix sFailBoom).status = "running" ∧
    (route_after_review (review_node oFix sFailBoom)).1 = Target.finished ∧
    (route_after_review (review_node oFix sFailBoom)).1 ≠ Target.node Stage.run ∧
    (route_after_review (review_node oFix sFailBoom)).2.error_analysis = some stateAsEA ∧
    (route_after_review (review_node oFix sFailBoom)).2.fix_applied = some true := by
  decide

/-- C3 amended: for every state with the fix-applied marker set and status
running, in which additionally `workflow_status` is not failed, the
stop-check does not fire and a pending error-analysis is present, the
router after Review deletes the error-analysis and fix-applied fields and
routes back to Execute. -/
theorem C3_amended : ∀ (s : WorkflowState) (ea : EA),
    s.workflow_status ≠ "failed" → s.status = "running" →
    s.error_analysis = some ea → s.fix_applied = some true →
    (should_stop_workflow s).1 = false →
    route_after_review s =
      (Target.node Stage.run, { s with error_analysis := none, fix_applied := none }) := by
  intro s ea hwf hst hea hfa hstop
  have hw : (s.workflow_status == "failed") = false := beq_eq_false_iff_ne.mpr hwf
  have hs' : (s.status == "failed") = false := by rw [hst]; decide
  have h1 : isFailed s = false := by simp [isFailed, hw, hs']
  simp [route_after_review, h1, hstop, hea, hfa, hst]

theorem C3_amended_witness :
    (sStar.workflow_status ≠ "failed") ∧
    route_after_review { sStar with fix_applied := some true } =
      (Target.node Stage.run,
       { sStar with fix_applied := none, error_analysis := none }) := by
  refine ⟨by decide, ?_⟩
  have h := C3_amended { sStar with fix_applied := some true } stateAsEA
    (by decide) (by decide) (by decide) (by decide) (by decide)
  exact h

/-- C9 counterexample: with conda absent and the venv creation also
failing, `env_node` does not return a light venv environment: it degrades
to the none-typed environment (and completes without raising). -/
theorem C9_counterexample :
    ((env_node oNoEnv baseState).env.map (·.type)) = some ("none") ∧
    ((env_node oNoEnv baseState).env.map (·.type)) ≠ some ("venv") ∧
    (env_node oNoEnv baseState).status = "running" := by
  decide

/-- C9 amended: when conda is absent and the venv creation succeeds (its
interpreter file exists after the creation attempt), provisioning returns
a light venv environment whose interpreter handle is the concrete venv
interpreter path under the repository root, and the node completes
normally; totality of `env_node` embeds the never-raises clause. -/
theorem C9_amended : ∀ (o : Oracle) (s : WorkflowState),
    o.condaAvailable = false → o.venvOk = true →
    s.repoOk = true → s.repo_name ≠ "" →
    (env_node o s).env = some
      { type := "venv",
        name := s.repo_name ++ "_" ++ o.ts ++ "_venv",
        path := s.repo_root ++ "/" ++ (s.repo_name ++ "_" ++ o.ts ++ "_venv"),
        exec_cmd := [venv_python_path o.isWindows
          (s.repo_root ++ "/" ++ (s.repo_name ++ "_" ++ o.ts ++ "_venv"))],
        python := "3.10" } ∧
    (env_node o s).status = "running" ∧
    (env_node o s).workflow_status = s.workflow_status := by
  intro o s hc hv hr hn
  have hn' : (s.repo_name == "") = false := beq_eq_false_iff_ne.mpr hn
  simp [env_node, _create_venv_env, hc, hv, hr, hn']

theorem C9_amended_witness :
    (env_node oStar baseState).env = some envStar ∧
    (env_node oStar baseState).status = "running" := by
  have h := C9_amended oStar baseState (by decide) (by decide) (by decide) (by decide)
  exact ⟨by rw [h.1]; decide, h.2.1⟩

theorem fsGet_filter_ne (fs : FileSys) (p q : FPath) (h : p ≠ q) :
    fsGet (fs.filter (fun e => !(e.1 == q))) p = fsGet fs p := by
  induction fs with
  | nil => rfl
  | cons a t ih =>
    rcases a with ⟨k, v⟩
    by_cases hk : k = q
    · subst hk
      have h1 : (k == p) = false := beq_eq_false_iff_ne.mpr (fun he => h he.symm)
      simp [List.filter_cons, fsGet, h1, ih]
    · have h2 : (k == q) = false := beq_eq_false_iff_ne.mpr hk
      simp [List.filter_cons, h2, fsGet, ih]

theorem fsGet_set_eq (fs : FileSys) (p : FPath) (v : String) :
    fsGet (fsSet fs p v) p = some v := by
  simp [fsSet, fsGet]

theorem fsGet_set_ne (fs : FileSys) (p q : FPath) (v : String) (h : p ≠ q) :
    fsGet (fsSet fs q v) p = fsGet fs p := by
  have h1 : (q == p) = false := beq_eq_false_iff_ne.mpr (fun he => h he.symm)
  simp [fsSet, fsGet, h1, fsGet_filter_ne fs p q h]

/-- C6: the patch write is atomic.  The operation sequence emitted by the
patch applier writes the replacement content to a sibling temporary file
in the target directory and renames it over the target in one step:
interrupting after any proper prefix of the sequence (any point before the
rename) leaves the target content unchanged, the full sequence installs
the new content, and the temporary file lives in the same directory as
the target. -/
theorem C6_atomic_write : ∀ (o : FixOracle) (fs : FileSys) (target : FPath)
    (content c : String) (reqs : List String),
    fsGet fs target = some c →
    fsGet fs (target.dropLast ++ [o.tmpbase]) = none →
    (o.replaceOk = true →
      (fixWrite o target content reqs).ops = atomicWriteOps target o.tmpbase content) ∧
    (∀ k, k < 2 →
      fsGet (applyOps fs ((atomicWriteOps target o.tmpbase content).take k)) target = some c) ∧
    fsGet (applyOps fs (atomicWriteOps target o.tmpbase content)) target = some content ∧
    (target.dropLast ++ [o.tmpbase]).dropLast = target.dropLast := by
  intro o fs target content c reqs hc hfresh
  have hne : target ≠ target.dropLast ++ [o.tmpbase] := by
    intro he
    rw [← he, hc] at hfresh
    exact Option.noConfusion hfresh
  refine ⟨fun hro => by simp [fixWrite, hro], ?_, ?_, List.dropLast_concat⟩
  · intro k hk
    match k, hk with
    | 0, _ => exact hc
    | 1, _ =>
      simp only [atomicWriteOps, List.take, applyOps, List.foldl, applyOp]
      rw [fsGet_set_ne _ _ _ _ hne]
      exact hc
  · simp only [atomicWriteOps, applyOps, List.foldl, applyOp]
    rw [fsGet_set_eq]
    exact fsGet_set_eq _ _ _

/-- C7: when the proposed full-file replacement for a Python target fails
the syntax-only parse, exactly one repair re-request containing the parse
error is issued (the request trace is the initial prompt followed by the
single repair prompt built from the error); the second attempt is
accepted only when it parses, in which case its sanitized body is what is
written to the resolved path; in every other case the operation returns
false with no file written and no file-system operation performed. -/
theorem C7_syntax_gate : ∀ (o : FixOracle) (repoRoot : FPath)
    (targetPath : Option String) (userPrompt fp body e : String),
    o.response ≠ "" →
    pyOrOpt (o.extractFilePath o.response) targetPath = some fp →
    fp ≠ "" →
    _extract_code_or_plain o.extractCodeBlock o.response = some body →
    strEnds (".py") fp = true →
    o.parseErr (_sanitize_python_source body) = some e →
    (fixError o repoRoot targetPath userPrompt).requests =
      [userPrompt, mkRepairPrompt userPrompt e] ∧
    (o.retryResponse = "" →
      (fixError o repoRoot targetPath userPrompt).ok = false ∧
      (fixError o repoRoot targetPath userPrompt).written = none ∧
      (fixError o repoRoot targetPath userPrompt).ops = []) ∧
    (o.retryResponse ≠ "" → o.extractCodeBlock o.retryResponse = none →
      (fixError o repoRoot targetPath userPrompt).ok = false ∧
      (fixError o repoRoot targetPath userPrompt).written = none ∧
      (fixError o repoRoot targetPath userPrompt).ops = []) ∧
    (∀ rb e2, o.retryResponse ≠ "" → o.extractCodeBlock o.retryResponse = some rb →
      o.parseErr (_sanitize_python_source rb) = some e2 →
      (fixError o repoRoot targetPath userPrompt).ok = false ∧
      (fixError o repoRoot targetPath userPrompt).written = none ∧
      (fixError o repoRoot targetPath userPrompt).ops = []) ∧
    (∀ rb, o.retryResponse ≠ "" → o.extractCodeBlock o.retryResponse = some rb →
      o.parseErr (_sanitize_python_source rb) = none → o.replaceOk = true →
      (fixError o repoRoot targetPath userPrompt).ok = true ∧
      (fixError o repoRoot targetPath userPrompt).written =
        some (repoRoot ++ splitSlash fp, _sanitize_python_source rb)) := by
  intro o repoRoot targetPath userPrompt fp body e hresp hfp hfp0 hbody hpy hparse
  have h1 : (o.response == "") = false := beq_eq_false_iff_ne.mpr hresp
  have h2 : (fp == "") = false := beq_eq_false_iff_ne.mpr hfp0
  refine ⟨?_, ?_, ?_, ?_, ?_⟩
  · rcases hrr : o.retryResponse == "" with _ | _
    · rcases hxb : o.extractCodeBlock o.retryResponse with _ | rb
      · simp [fixError, h1, h2, hfp, hbody, hpy, hparse, hrr, hxb]
      · rcases hpe : o.parseErr (_sanitize_python_source rb) with _ | e2 <;>
          simp [fixError, fixWrite, h1, h2, hfp, hbody, hpy, hparse, hrr, hxb, hpe] <;>
          split <;> rfl
    · simp [fixError, h1, h2, hfp, hbody, hpy, hparse, hrr]
  · intro hrr0
    have hrr : (o.retryResponse == "") = true := beq_iff_eq.mpr hrr0
    simp [fixError, h1, h2, hfp, hbody, hpy, hparse, hrr]
  · intro hrr0 hxb
    have hrr : (o.retryResponse == "") = false := beq_eq_false_iff_ne.mpr hrr0
    simp [fixError, h1, h2, hfp, hbody, hpy, hparse, hrr, hxb]
  · intro rb e2 hrr0 hxb hpe
    have hrr : (o.retryResponse == "") = false := beq_eq_false_iff_ne.mpr hrr0
    simp [fixError, h1, h2, hfp, hbody, hpy, hparse, hrr, hxb, hpe]
  · intro rb hrr0 hxb hpe hro
    have hrr : (o.retryResponse == "") = false := beq_eq_false_iff_ne.mpr hrr0
    simp [fixError, fixWrite, h1, h2, hfp, hbody, hpy, hparse, hrr, hxb, hpe, hro]

theorem C7_syntax_gate_witness :
    (fixOracleW.response ≠ "") ∧
    pyOrOpt (fixOracleW.extractFilePath fixOracleW.response) none = some ("a.py") ∧
    _extract_code_or_plain fixOracleW.extractCodeBlock fixOracleW.response = some ("x=1") ∧
    fixOracleW.parseErr (_sanitize_python_source ("x=1")) = some ("bad syntax") ∧
    (fixError fixOracleW (["w"]) none ("P")).requests =
      [("P" : String), mkRepairPrompt ("P") ("bad syntax")] ∧
    (fixError fixOracleW (["w"]) none ("P")).ok = true := by
  refine ⟨by decide, by decide, by decide, by decide, ?_, ?_⟩
  · exact (C7_syntax_gate fixOracleW (["w"]) none ("P") ("a.py") ("x=1") ("bad syntax")
      (by decide) (by decide) (by decide) (by decide) (by decide) (by decide)).1
  · exact ((C7_syntax_gate fixOracleW (["w"]) none ("P") ("a.py") ("x=1") ("bad syntax")
      (by decide) (by decide) (by decide) (by decide) (by decide) (by decide)).2.2.2.2
      ("y=2") (by decide) (by decide) (by decide) (by decide)).1

theorem C6_atomic_write_witness :
    fsGet fs0 (["w", "a.py"]) = some ("old") ∧
    fsGet fs0 ((["w", "a.py"] : FPath).dropLast ++ [fixOracleW.tmpbase]) = none ∧
    fsGet (applyOps fs0 ((atomicWriteOps (["w", "a.py"]) fixOracleW.tmpbase ("new")).take 1))
      (["w", "a.py"]) = some ("old") :=
  ⟨by decide, by decide,
   (C6_atomic_write fixOracleW fs0 (["w", "a.py"]) ("new") ("old") []
     (by decide) (by decide)).2.1 1 (by decide)⟩

end Code2MCP
